import Mathlib

/-!
Verification of `create_context_cache`
(`libs/vertexai/langchain_google_vertexai/utils.py`).

The source is a single marshalling function in front of a vendor SDK call.
Its collaborators (`_format_model_name`, `is_gemini_advanced`,
`_parse_chat_history_gemini`, `_format_tool_config`, `_format_to_gapic_tool`,
`caching.CachedContent.create`) are external black boxes, so the embedding is
parameterised over them.  Fallible collaborators return `Except PyErr`, and a
raised Python exception is modelled as an `Except.error` result.  The remote
`create` calls issued during a run are recorded in an explicit trace, and the
caller-visible inputs are passed through the result record so that frame
conditions can be stated.
-/

/-- A Python exception: either a locally raised `ValueError` with its message,
or an opaque failure raised by an external collaborator or the remote call. -/
inductive PyErr where
  | valueError (msg : String)
  | upstream (tag : String)
deriving DecidableEq, Repr

deriving instance DecidableEq for Except

/-- A chat message: opaque role-tagged content, consumed by the history
parser. -/
structure Msg where
  role : String
  content : String
deriving DecidableEq, Repr

/-- Opaque content unit produced by the history parser. -/
abbrev Content := String

/-- Opaque aggregated tool schema produced by `_format_to_gapic_tool`. -/
abbrev GapicTool := String

/-- Opaque normalised tool config produced by `_format_tool_config`. -/
abbrev GapicToolConfig := String

/-- A single tool definition supplied by the caller. -/
abbrev Tool := String

/-- `_ToolConfigDict`: at runtime a Python dict, modelled as an association
list so that Python truthiness (non-emptiness) is expressible. -/
abbrev ToolConfigDict := List (String × String)

/-- Absolute expiration timestamp (opaque). -/
abbrev PyDateTime := Int

/-- Relative time-to-live duration (opaque). -/
abbrev PyTimeDelta := Int

/-- The value the request carries in its `tool_config` field when it is not
`None`: either the raw caller-supplied dict (forwarded unformatted when it is
falsy, i.e. empty) or the formatter output. -/
inductive ToolConfigField where
  | raw (d : ToolConfigDict)
  | formatted (g : GapicToolConfig)
deriving DecidableEq, Repr

/-- The model reference object: the fields of `ChatVertexAI` / `VertexAI`
that the source reads. -/
structure ModelRef where
  model_name : String
  project : Option String
  location : String
  model_family : String
deriving DecidableEq, Repr

/-- The keyword arguments of the single `caching.CachedContent.create` call. -/
structure CreateRequest where
  model_name : String
  system_instruction : Option Content
  contents : List Content
  ttl : Option PyTimeDelta
  expire_time : Option PyDateTime
  tool_config : Option ToolConfigField
  tools : Option (List GapicTool)
deriving DecidableEq, Repr

/-- The resource returned by the remote creation call; the source reads only
its `name` field. -/
structure CachedContent where
  name : String
deriving DecidableEq, Repr

/-- The external collaborators of `create_context_cache`, as black boxes. -/
structure Collab where
  format_model_name : String → Option String → String → Except PyErr String
  is_gemini_advanced : String → Bool
  parse_chat_history_gemini :
    List Msg → Option String → Except PyErr (Option Content × List Content)
  format_tool_config : ToolConfigDict → Except PyErr GapicToolConfig
  format_to_gapic_tool : List Tool → Except PyErr GapicTool
  create : CreateRequest → Except PyErr CachedContent

/-- The capability check of the source: `is_gemini_advanced(model.model_family)`.
It reads only the model family field of the model reference. -/
def capability_check (c : Collab) (model : ModelRef) : Bool :=
  c.is_gemini_advanced model.model_family

/-- The `tool_config` marshalling of the source:
`if tool_config: tool_config = _format_tool_config(tool_config)`.
Python truthiness: `None` and the empty dict are falsy, so the formatter runs
only on a supplied non-empty dict; a supplied empty dict is forwarded raw. -/
def translate_tool_config (c : Collab) (tool_config : Option ToolConfigDict) :
    Except PyErr (Option ToolConfigField) :=
  match tool_config with
  | none => .ok none
  | some d =>
    if d.isEmpty then .ok (some (ToolConfigField.raw d))
    else (c.format_tool_config d).map (fun g => some (ToolConfigField.formatted g))

/-- The `tools` marshalling of the source:
`if tools is not None: tools = [_format_to_gapic_tool(tools)]`.
This is a presence check, not a truthiness check: any supplied list, empty
included, is aggregated by the formatter into a one-element list. -/
def translate_tools (c : Collab) (tools : Option (List Tool)) :
    Except PyErr (Option (List GapicTool)) :=
  match tools with
  | none => .ok none
  | some ts => (c.format_to_gapic_tool ts).map (fun g => some [g])

/-- The body of `create_context_cache`, returning the function result together
with the trace of `caching.CachedContent.create` calls issued, in order. -/
def create_context_cache_run (c : Collab) (model : ModelRef)
    (messages : List Msg) (expire_time : Option PyDateTime)
    (time_to_live : Option PyTimeDelta) (tools : Option (List Tool))
    (tool_config : Option ToolConfigDict) :
    Except PyErr String × List CreateRequest :=
  match c.format_model_name model.model_name model.project model.location with
  | .error e => (.error e, [])
  | .ok model_name =>
    if capability_check c model = false then
      (.error (.valueError
        ("Model " ++ model_name ++ " doesn\x27t support context catching")), [])
    else
      match c.parse_chat_history_gemini messages model.project with
      | .error e => (.error e, [])
      | .ok (system_instruction, contents) =>
        match translate_tool_config c tool_config with
        | .error e => (.error e, [])
        | .ok tc =>
          match translate_tools c tools with
          | .error e => (.error e, [])
          | .ok tls =>
            let req : CreateRequest :=
              { model_name := model_name
                system_instruction := system_instruction
                contents := contents
                ttl := time_to_live
                expire_time := expire_time
                tool_config := tc
                tools := tls }
            match c.create req with
            | .error e => (.error e, [req])
            | .ok cached_content => (.ok cached_content.name, [req])

/-- The caller-visible outcome of one invocation: the result (returned string
or raised exception), the trace of remote creation calls, and the
caller-visible inputs after the call (the source never assigns to any
attribute of `model`, never mutates `messages`, and rebinds only its local
`tool_config` and `tools` variables, so the embedding threads the inputs
through unchanged). -/
structure RunResult where
  result : Except PyErr String
  createCalls : List CreateRequest
  model : ModelRef
  messages : List Msg
  expire_time : Option PyDateTime
  time_to_live : Option PyTimeDelta
deriving DecidableEq, Repr

/-- `create_context_cache(model, messages, expire_time, time_to_live, tools,
tool_config)` from `utils.py`. -/
def create_context_cache (c : Collab) (model : ModelRef) (messages : List Msg)
    (expire_time : Option PyDateTime) (time_to_live : Option PyTimeDelta)
    (tools : Option (List Tool)) (tool_config : Option ToolConfigDict) :
    RunResult :=
  let r := create_context_cache_run c model messages expire_time time_to_live
    tools tool_config
  { result := r.1
    createCalls := r.2
    model := model
    messages := messages
    expire_time := expire_time
    time_to_live := time_to_live }

/-! Concrete collaborator instances used by the witnesses. -/

/-- A sample set of collaborators in which every call succeeds. -/
def okCollab : Collab where
  format_model_name := fun m p l =>
    .ok ("projects/" ++ p.getD "-" ++ "/locations/" ++ l ++
      "/publishers/google/models/" ++ m)
  is_gemini_advanced := fun fam => fam == "gemini_advanced"
  parse_chat_history_gemini := fun msgs _ =>
    .ok (some "You are helpful", msgs.map (fun m => m.content))
  format_tool_config := fun d => .ok ("cfg:" ++ toString d.length)
  format_to_gapic_tool := fun ts => .ok ("tool:" ++ toString ts.length)
  create := fun _ => .ok { name := "projects/p/locations/l/cachedContents/123" }

/-- A model reference whose family passes the capability check. -/
def advModel : ModelRef where
  model_name := "gemini-1.5-pro-001"
  project := some "proj"
  location := "us-central1"
  model_family := "gemini_advanced"

/-- A model reference whose family fails the capability check. -/
def basicModel : ModelRef :=
  { advModel with model_family := "gemini_basic" }

/-- A sample user message. -/
def userMsg : Msg where
  role := "user"
  content := "Hi"

/-- The fully qualified name `okCollab.format_model_name` resolves for
`advModel` and `basicModel`. -/
def sampleName : String :=
  "projects/proj/locations/us-central1/publishers/google/models/gemini-1.5-pro-001"

/-- Collaborators whose history parser fails. -/
def parseFailCollab : Collab :=
  { okCollab with parse_chat_history_gemini := fun _ _ => .error (.upstream "parse") }

/-- Collaborators whose tool-config formatter fails. -/
def toolConfigFailCollab : Collab :=
  { okCollab with format_tool_config := fun _ => .error (.upstream "toolcfg") }

/-- Collaborators whose tool formatter fails. -/
def toolsFailCollab : Collab :=
  { okCollab with format_to_gapic_tool := fun _ => .error (.upstream "tools") }

/-- Collaborators whose model-name formatter fails. -/
def nameFailCollab : Collab :=
  { okCollab with format_model_name := fun _ _ _ => .error (.upstream "name") }

/-! Claim theorems. -/

/-- C1: for every model whose capability flag is false (and whose name the
formatter resolves), `create_context_cache` raises a locally-originated
`ValueError` whose message mentions the resolved fully-qualified model name,
and makes zero remote creation calls. -/
theorem C1_unsupported_model_raises_locally (c : Collab) (model : ModelRef)
    (messages : List Msg) (expire_time : Option PyDateTime)
    (time_to_live : Option PyTimeDelta) (tools : Option (List Tool))
    (tool_config : Option ToolConfigDict) (name : String)
    (hname : c.format_model_name model.model_name model.project model.location
      = .ok name)
    (hcap : capability_check c model = false) :
    (create_context_cache c model messages expire_time time_to_live tools
        tool_config).result =
      .error (.valueError
        ("Model " ++ name ++ " doesn\x27t support context catching")) ∧
    (create_context_cache c model messages expire_time time_to_live tools
        tool_config).createCalls = [] := by
  constructor <;>
    simp [create_context_cache, create_context_cache_run, hname, hcap]

/-- Witness for C1 at a concrete unsupported model. -/
theorem C1_unsupported_model_raises_locally_witness :
    (create_context_cache okCollab basicModel [userMsg] none none none
        none).result =
      .error (.valueError
        ("Model " ++ sampleName ++ " doesn\x27t support context catching")) ∧
    (create_context_cache okCollab basicModel [userMsg] none none none
        none).createCalls = [] :=
  C1_unsupported_model_raises_locally okCollab basicModel [userMsg] none none
    none none sampleName (by decide) (by decide)

/-- C2: whenever the collaborators' translations succeed, exactly one remote
creation call is made if the capability check passes — its fields being the
name formatter's output, the history parser's output, and the caller-supplied
`time_to_live` and `expire_time` — and no remote call is made if the
capability check fails (the call happens only after the check passes). -/
theorem C2_exactly_one_translated_call (c : Collab) (model : ModelRef)
    (messages : List Msg) (expire_time : Option PyDateTime)
    (time_to_live : Option PyTimeDelta) (tools : Option (List Tool))
    (tool_config : Option ToolConfigDict) (name : String)
    (si : Option Content) (cts : List Content)
    (tcf : Option ToolConfigField) (tls : Option (List GapicTool))
    (hname : c.format_model_name model.model_name model.project model.location
      = .ok name)
    (hparse : c.parse_chat_history_gemini messages model.project = .ok (si, cts))
    (htc : translate_tool_config c tool_config = .ok tcf)
    (hts : translate_tools c tools = .ok tls) :
    (capability_check c model = true →
      (create_context_cache c model messages expire_time time_to_live tools
          tool_config).createCalls =
        [{ model_name := name
           system_instruction := si
           contents := cts
           ttl := time_to_live
           expire_time := expire_time
           tool_config := tcf
           tools := tls }]) ∧
    (capability_check c model = false →
      (create_context_cache c model messages expire_time time_to_live tools
          tool_config).createCalls = []) := by
  constructor
  · intro hcap
    simp [create_context_cache, create_context_cache_run, hname, hparse, htc,
      hts, hcap]
    cases c.create
        { model_name := name, system_instruction := si, contents := cts,
          ttl := time_to_live, expire_time := expire_time, tool_config := tcf,
          tools := tls } <;>
      simp
  · intro hcap
    simp [create_context_cache, create_context_cache_run, hname, hparse, htc,
      hts, hcap]

/-- Witness for C2 at a concrete supported model with tools and tool config
supplied. -/
theorem C2_exactly_one_translated_call_witness :
    (create_context_cache okCollab advModel [userMsg] (some 77) (some 1800)
        (some ["t"]) (some [("k", "v")])).createCalls =
      [{ model_name := sampleName
         system_instruction := some "You are helpful"
         contents := ["Hi"]
         ttl := some 1800
         expire_time := some 77
         tool_config := some (ToolConfigField.formatted "cfg:1")
         tools := some ["tool:1"] }] :=
  (C2_exactly_one_translated_call okCollab advModel [userMsg] (some 77)
    (some 1800) (some ["t"]) (some [("k", "v")]) sampleName
    (some "You are helpful") ["Hi"] (some (ToolConfigField.formatted "cfg:1"))
    (some ["tool:1"]) (by decide) (by decide) (by decide) (by decide)).1
    (by decide)

/-- C3: on every successful invocation the returned value is the `name` field
of the resource produced by the remote creation call. -/
theorem C3_returns_created_resource_name (c : Collab) (model : ModelRef)
    (messages : List Msg) (expire_time : Option PyDateTime)
    (time_to_live : Option PyTimeDelta) (tools : Option (List Tool))
    (tool_config : Option ToolConfigDict) (name : String)
    (si : Option Content) (cts : List Content)
    (tcf : Option ToolConfigField) (tls : Option (List GapicTool))
    (cached : CachedContent)
    (hname : c.format_model_name model.model_name model.project model.location
      = .ok name)
    (hcap : capability_check c model = true)
    (hparse : c.parse_chat_history_gemini messages model.project = .ok (si, cts))
    (htc : translate_tool_config c tool_config = .ok tcf)
    (hts : translate_tools c tools = .ok tls)
    (hcreate : c.create
      { model_name := name
        system_instruction := si
        contents := cts
        ttl := time_to_live
        expire_time := expire_time
        tool_config := tcf
        tools := tls } = .ok cached) :
    (create_context_cache c model messages expire_time time_to_live tools
        tool_config).result = .ok cached.name := by
  simp [create_context_cache, create_context_cache_run, hname, hcap, hparse,
    htc, hts, hcreate]

/-- Witness for C3 at a concrete input: the configured identifier of the stub
remote collaborator is returned. -/
theorem C3_returns_created_resource_name_witness :
    (create_context_cache okCollab advModel [userMsg] none none none
        none).result = .ok "projects/p/locations/l/cachedContents/123" :=
  C3_returns_created_resource_name okCollab advModel [userMsg] none none none
    none sampleName (some "You are helpful") ["Hi"] none none
    { name := "projects/p/locations/l/cachedContents/123" } (by decide)
    (by decide) (by decide) (by decide) (by decide) (by decide)

/-- Helper: whenever the name formatting, capability check and translations
succeed, the trace of remote creation calls is exactly the one translated
request, whatever the remote call itself returns. -/
theorem createCalls_of_translations (c : Collab) (model : ModelRef)
    (messages : List Msg) (expire_time : Option PyDateTime)
    (time_to_live : Option PyTimeDelta) (tools : Option (List Tool))
    (tool_config : Option ToolConfigDict) (name : String)
    (si : Option Content) (cts : List Content)
    (tcf : Option ToolConfigField) (tls : Option (List GapicTool))
    (hname : c.format_model_name model.model_name model.project model.location
      = .ok name)
    (hcap : capability_check c model = true)
    (hparse : c.parse_chat_history_gemini messages model.project = .ok (si, cts))
    (htc : translate_tool_config c tool_config = .ok tcf)
    (hts : translate_tools c tools = .ok tls) :
    (create_context_cache c model messages expire_time time_to_live tools
        tool_config).createCalls =
      [{ model_name := name
         system_instruction := si
         contents := cts
         ttl := time_to_live
         expire_time := expire_time
         tool_config := tcf
         tools := tls }] := by
  simp [create_context_cache, create_context_cache_run, hname, hcap, hparse,
    htc, hts]
  cases c.create
      { model_name := name, system_instruction := si, contents := cts,
        ttl := time_to_live, expire_time := expire_time, tool_config := tcf,
        tools := tls } <;>
    simp

/-- C4: when `tools` is omitted the request's tools field is absent; when
`tools` is supplied the request's tools field is the one-element list holding
the formatter's aggregated schema of the whole supplied collection. -/
theorem C4_tools_field (c : Collab) (model : ModelRef) (messages : List Msg)
    (expire_time : Option PyDateTime) (time_to_live : Option PyTimeDelta)
    (tool_config : Option ToolConfigDict) (name : String)
    (si : Option Content) (cts : List Content) (tcf : Option ToolConfigField)
    (hname : c.format_model_name model.model_name model.project model.location
      = .ok name)
    (hcap : capability_check c model = true)
    (hparse : c.parse_chat_history_gemini messages model.project = .ok (si, cts))
    (htc : translate_tool_config c tool_config = .ok tcf) :
    ((create_context_cache c model messages expire_time time_to_live none
        tool_config).createCalls.map (fun r => r.tools) = [none]) ∧
    (∀ ts g, c.format_to_gapic_tool ts = .ok g →
      (create_context_cache c model messages expire_time time_to_live (some ts)
          tool_config).createCalls.map (fun r => r.tools) = [some [g]]) := by
  constructor
  · rw [createCalls_of_translations c model messages expire_time time_to_live
      none tool_config name si cts tcf none hname hcap hparse htc
      (by simp [translate_tools])]
    simp
  · intro ts g hg
    rw [createCalls_of_translations c model messages expire_time time_to_live
      (some ts) tool_config name si cts tcf (some [g]) hname hcap hparse htc
      (by simp [translate_tools, hg, Except.map])]
    simp

/-- Witness for C4: with `tools = [t1, t2]` supplied, the request carries the
single aggregated schema of the two-element collection, not one per tool. -/
theorem C4_tools_field_witness :
    (create_context_cache okCollab advModel [userMsg] none none
        (some ["t1", "t2"]) none).createCalls.map (fun r => r.tools) =
      [some ["tool:2"]] :=
  (C4_tools_field okCollab advModel [userMsg] none none none sampleName
    (some "You are helpful") ["Hi"] none (by decide) (by decide) (by decide)
    (by decide)).2 ["t1", "t2"] "tool:2" (by decide)

/-- C5 counterexample: a supplied empty `tool_config` dict is present but
falsy, so the source's truthiness check skips the formatter and forwards the
raw dict: the request field differs from the formatter's output. -/
theorem C5_tool_config_counterexample :
    ((create_context_cache okCollab advModel [userMsg] none none none
        (some [])).createCalls.map (fun r => r.tool_config) =
      [some (ToolConfigField.raw [])]) ∧
    okCollab.format_tool_config [] = .ok "cfg:0" ∧
    (some (ToolConfigField.raw ([] : ToolConfigDict)) ≠
      some (ToolConfigField.formatted "cfg:0")) := by
  decide

/-- C5 (amended): when `tool_config` is omitted the request field is absent;
when a non-empty (truthy) `tool_config` is supplied the request field is the
formatter's output; when an empty (falsy) dict is supplied the formatter is
skipped and the dict is forwarded unchanged. -/
theorem C5_tool_config_field_amended (c : Collab) (model : ModelRef)
    (messages : List Msg) (expire_time : Option PyDateTime)
    (time_to_live : Option PyTimeDelta) (tools : Option (List Tool))
    (name : String) (si : Option Content) (cts : List Content)
    (tls : Option (List GapicTool))
    (hname : c.format_model_name model.model_name model.project model.location
      = .ok name)
    (hcap : capability_check c model = true)
    (hparse : c.parse_chat_history_gemini messages model.project = .ok (si, cts))
    (hts : translate_tools c tools = .ok tls) :
    ((create_context_cache c model messages expire_time time_to_live tools
        none).createCalls.map (fun r => r.tool_config) = [none]) ∧
    (∀ d g, d ≠ [] → c.format_tool_config d = .ok g →
      (create_context_cache c model messages expire_time time_to_live tools
          (some d)).createCalls.map (fun r => r.tool_config) =
        [some (ToolConfigField.formatted g)]) ∧
    ((create_context_cache c model messages expire_time time_to_live tools
        (some [])).createCalls.map (fun r => r.tool_config) =
      [some (ToolConfigField.raw [])]) := by
  refine ⟨?_, ?_, ?_⟩
  · rw [createCalls_of_translations c model messages expire_time time_to_live
      tools none name si cts none tls hname hcap hparse
      (by simp [translate_tool_config]) hts]
    simp
  · intro d g hd hg
    rw [createCalls_of_translations c model messages expire_time time_to_live
      tools (some d) name si cts (some (ToolConfigField.formatted g)) tls hname
      hcap hparse ?_ hts]
    · simp
    · cases d with
      | nil => exact absurd rfl hd
      | cons x xs => simp [translate_tool_config, hg, Except.map]
  · rw [createCalls_of_translations c model messages expire_time time_to_live
      tools (some []) name si cts (some (ToolConfigField.raw [])) tls hname
      hcap hparse (by simp [translate_tool_config]) hts]
    simp

/-- Witness for the amended C5 at a concrete non-empty tool config. -/
theorem C5_tool_config_field_amended_witness :
    (create_context_cache okCollab advModel [userMsg] none none none
        (some [("k", "v")])).createCalls.map (fun r => r.tool_config) =
      [some (ToolConfigField.formatted "cfg:1")] :=
  (C5_tool_config_field_amended okCollab advModel [userMsg] none none none
    sampleName (some "You are helpful") ["Hi"] none (by decide) (by decide)
    (by decide) (by decide)).2.1 [("k", "v")] "cfg:1" (by decide) (by decide)

/-- C6: a failure raised by the history parser or by either tool formatter
propagates unchanged (the very same exception, not caught or wrapped), no
remote creation call is made, and no cache identifier is produced. -/
theorem C6_upstream_failures_propagate (c : Collab) (model : ModelRef)
    (messages : List Msg) (expire_time : Option PyDateTime)
    (time_to_live : Option PyTimeDelta) (tools : Option (List Tool))
    (tool_config : Option ToolConfigDict) (name : String)
    (hname : c.format_model_name model.model_name model.project model.location
      = .ok name)
    (hcap : capability_check c model = true) :
    (∀ e, c.parse_chat_history_gemini messages model.project = .error e →
      (create_context_cache c model messages expire_time time_to_live tools
          tool_config).result = .error e ∧
      (create_context_cache c model messages expire_time time_to_live tools
          tool_config).createCalls = []) ∧
    (∀ si cts d e,
      c.parse_chat_history_gemini messages model.project = .ok (si, cts) →
      tool_config = some d → d ≠ [] → c.format_tool_config d = .error e →
      (create_context_cache c model messages expire_time time_to_live tools
          tool_config).result = .error e ∧
      (create_context_cache c model messages expire_time time_to_live tools
          tool_config).createCalls = []) ∧
    (∀ si cts tcf ts e,
      c.parse_chat_history_gemini messages model.project = .ok (si, cts) →
      translate_tool_config c tool_config = .ok tcf →
      tools = some ts → c.format_to_gapic_tool ts = .error e →
      (create_context_cache c model messages expire_time time_to_live tools
          tool_config).result = .error e ∧
      (create_context_cache c model messages expire_time time_to_live tools
          tool_config).createCalls = []) := by
  refine ⟨?_, ?_, ?_⟩
  · intro e he
    constructor <;>
      simp [create_context_cache, create_context_cache_run, hname, hcap, he]
  · intro si cts d e hp hd hne hf
    subst hd
    have htc : translate_tool_config c (some d) = .error e := by
      cases d with
      | nil => exact absurd rfl hne
      | cons x xs => simp [translate_tool_config, hf, Except.map]
    constructor <;>
      simp [create_context_cache, create_context_cache_run, hname, hcap, hp,
        htc]
  · intro si cts tcf ts e hp htc hts hf
    subst hts
    have htl : translate_tools c (some ts) = .error e := by
      simp [translate_tools, hf, Except.map]
    constructor <;>
      simp [create_context_cache, create_context_cache_run, hname, hcap, hp,
        htc, htl]

/-- Witness for C6: a failing history parser propagates its own exception and
no remote call is recorded. -/
theorem C6_upstream_failures_propagate_witness :
    (create_context_cache parseFailCollab advModel [userMsg] none none none
        none).result = .error (.upstream "parse") ∧
    (create_context_cache parseFailCollab advModel [userMsg] none none none
        none).createCalls = [] :=
  (C6_upstream_failures_propagate parseFailCollab advModel [userMsg] none none
    none none sampleName (by decide) (by decide)).1 (.upstream "parse")
    (by decide)

/-- C7: when both `expire_time` and `time_to_live` are omitted, the remote
request carries both corresponding fields absent, with no local default. -/
theorem C7_omitted_expiry_stays_absent (c : Collab) (model : ModelRef)
    (messages : List Msg) (tools : Option (List Tool))
    (tool_config : Option ToolConfigDict) (name : String)
    (si : Option Content) (cts : List Content)
    (tcf : Option ToolConfigField) (tls : Option (List GapicTool))
    (hname : c.format_model_name model.model_name model.project model.location
      = .ok name)
    (hcap : capability_check c model = true)
    (hparse : c.parse_chat_history_gemini messages model.project = .ok (si, cts))
    (htc : translate_tool_config c tool_config = .ok tcf)
    (hts : translate_tools c tools = .ok tls) :
    (create_context_cache c model messages none none tools
        tool_config).createCalls.map (fun r => (r.ttl, r.expire_time)) =
      [(none, none)] := by
  rw [createCalls_of_translations c model messages none none tools tool_config
    name si cts tcf tls hname hcap hparse htc hts]
  simp

/-- Witness for C7 at a concrete input. -/
theorem C7_omitted_expiry_stays_absent_witness :
    (create_context_cache okCollab advModel [userMsg] none none none
        none).createCalls.map (fun r => (r.ttl, r.expire_time)) =
      [(none, none)] :=
  C7_omitted_expiry_stays_absent okCollab advModel [userMsg] none none
    sampleName (some "You are helpful") ["Hi"] none none (by decide)
    (by decide) (by decide) (by decide) (by decide)

/-- C8: supplying both `expire_time` and `time_to_live` raises no local
validation error about their mutual exclusivity: both values are forwarded
unchanged to the remote creation call and the invocation succeeds. -/
theorem C8_no_mutual_exclusivity_validation (c : Collab) (model : ModelRef)
    (messages : List Msg) (et : PyDateTime) (ttl : PyTimeDelta)
    (tools : Option (List Tool)) (tool_config : Option ToolConfigDict)
    (name : String) (si : Option Content) (cts : List Content)
    (tcf : Option ToolConfigField) (tls : Option (List GapicTool))
    (cached : CachedContent)
    (hname : c.format_model_name model.model_name model.project model.location
      = .ok name)
    (hcap : capability_check c model = true)
    (hparse : c.parse_chat_history_gemini messages model.project = .ok (si, cts))
    (htc : translate_tool_config c tool_config = .ok tcf)
    (hts : translate_tools c tools = .ok tls)
    (hcreate : c.create
      { model_name := name
        system_instruction := si
        contents := cts
        ttl := some ttl
        expire_time := some et
        tool_config := tcf
        tools := tls } = .ok cached) :
    (create_context_cache c model messages (some et) (some ttl) tools
        tool_config).result = .ok cached.name ∧
    (create_context_cache c model messages (some et) (some ttl) tools
        tool_config).createCalls.map (fun r => (r.ttl, r.expire_time)) =
      [(some ttl, some et)] := by
  constructor
  · simp [create_context_cache, create_context_cache_run, hname, hcap, hparse,
      htc, hts, hcreate]
  · rw [createCalls_of_translations c model messages (some et) (some ttl)
      tools tool_config name si cts tcf tls hname hcap hparse htc hts]
    simp

/-- Witness for C8 at concrete `expire_time` and `time_to_live` values. -/
theorem C8_no_mutual_exclusivity_validation_witness :
    (create_context_cache okCollab advModel [userMsg] (some 77) (some 1800)
        none none).result = .ok "projects/p/locations/l/cachedContents/123" ∧
    (create_context_cache okCollab advModel [userMsg] (some 77) (some 1800)
        none none).createCalls.map (fun r => (r.ttl, r.expire_time)) =
      [(some 1800, some 77)] :=
  C8_no_mutual_exclusivity_validation okCollab advModel [userMsg] 77 1800 none
    none sampleName (some "You are helpful") ["Hi"] none none
    { name := "projects/p/locations/l/cachedContents/123" } (by decide)
    (by decide) (by decide) (by decide) (by decide) (by decide)

/-- C9: the name formatter runs before the capability check — its failure
propagates even for a model that does not support caching, no remote call
being made — the unsupported-model error always embeds the fully-qualified
resolved name, and the capability check reads only the model family. -/
theorem C9_name_resolution_precedes_check (c : Collab) (model : ModelRef)
    (messages : List Msg) (expire_time : Option PyDateTime)
    (time_to_live : Option PyTimeDelta) (tools : Option (List Tool))
    (tool_config : Option ToolConfigDict) :
    (∀ e, c.format_model_name model.model_name model.project model.location
        = .error e →
      capability_check c model = false →
      (create_context_cache c model messages expire_time time_to_live tools
          tool_config).result = .error e ∧
      (create_context_cache c model messages expire_time time_to_live tools
          tool_config).createCalls = []) ∧
    (∀ name, c.format_model_name model.model_name model.project model.location
        = .ok name →
      capability_check c model = false →
      (create_context_cache c model messages expire_time time_to_live tools
          tool_config).result =
        .error (.valueError
          ("Model " ++ name ++ " doesn\x27t support context catching"))) ∧
    (∀ m other : ModelRef, m.model_family = other.model_family →
      capability_check c m = capability_check c other) := by
  refine ⟨?_, ?_, ?_⟩
  · intro e he _
    constructor <;>
      simp [create_context_cache, create_context_cache_run, he]
  · intro name hname hcap
    simp [create_context_cache, create_context_cache_run, hname, hcap]
  · intro m other h
    simp [capability_check, h]

/-- Witness for C9: a failing name formatter propagates its exception on an
unsupported model, before the unsupported-model error could be raised. -/
theorem C9_name_resolution_precedes_check_witness :
    (create_context_cache nameFailCollab basicModel [userMsg] none none none
        none).result = .error (.upstream "name") ∧
    (create_context_cache nameFailCollab basicModel [userMsg] none none none
        none).createCalls = [] :=
  (C9_name_resolution_precedes_check nameFailCollab basicModel [userMsg] none
    none none none).1 (.upstream "name") (by decide) (by decide)

/-- C10: the call never mutates its caller-visible inputs: the model
reference, the messages list, and the supplied expiry values are the same
after the call as before, on the success path and on every failure path;
the source rebinds only its local `tool_config` and `tools` variables. -/
theorem C10_inputs_unchanged (c : Collab) (model : ModelRef)
    (messages : List Msg) (expire_time : Option PyDateTime)
    (time_to_live : Option PyTimeDelta) (tools : Option (List Tool))
    (tool_config : Option ToolConfigDict) :
    (create_context_cache c model messages expire_time time_to_live tools
        tool_config).model = model ∧
    (create_context_cache c model messages expire_time time_to_live tools
        tool_config).messages = messages ∧
    (create_context_cache c model messages expire_time time_to_live tools
        tool_config).expire_time = expire_time ∧
    (create_context_cache c model messages expire_time time_to_live tools
        tool_config).time_to_live = time_to_live :=
  ⟨rfl, rfl, rfl, rfl⟩
